import Mathlib

/- Shallow embedding of the backup-everything-to-cloud repository.

   Embedded source code:
   - the retry helper (src/test-gdrive.js lines 199 to 234, identical to the
     utils module the orchestrator imports);
   - UploaderFactory (src/src/uploaders/factory.js);
   - BaseUploader.cleanupOldBackups (src/src/uploaders/base.js) and the
     GDriveUploader override of it (src/unnamed/part_000 lines 208 to 240);
   - Config.loadConfig (src/src/config.js lines 134 to 172);
   - the runBackup orchestrator (src/src/backup.js).

   Modelling conventions: JavaScript timestamps are integers (milliseconds);
   fallible JavaScript calls are Except String values; a JSON field that can
   be absent is an Option; the outcome of each external effect (compression,
   pg_dump, an upload over the network) is supplied as an oracle function
   parameter giving the final result of the corresponding retry-wrapped call. -/

namespace BackupCloud

/- ===================== Definitions ===================== -/

/- ----- RetryExecutor: src/test-gdrive.js lines 199 to 234 ----- -/

/-- Message thrown at src/test-gdrive.js line 234 after every attempt failed:
a single error wrapping the message of the last underlying error. -/
def retryFailMsg (maxRetries : Nat) (lastMsg : String) : String :=
  "Failed after " ++ toString (maxRetries + 1) ++ " attempts: " ++ lastMsg

/-- The retry loop of src/test-gdrive.js lines 199 to 234, entered at a given
attempt index. fn k is the outcome of attempt number k (0-based). Returns the
final result together with the list of backoff delays slept, in order; the
delay slept after a failed attempt k with attempts remaining is
initialDelay * 2 ^ k. -/
def retryAux (fn : Nat → Except String α) (maxRetries initialDelay attempt : Nat) :
    Except String α × List Nat :=
  match fn attempt with
  | .ok v => (.ok v, [])
  | .error e =>
    if h : attempt < maxRetries then
      let delay := initialDelay * 2 ^ attempt
      let r := retryAux fn maxRetries initialDelay (attempt + 1)
      (r.1, delay :: r.2)
    else
      (.error (retryFailMsg maxRetries e), [])
termination_by maxRetries - attempt
decreasing_by omega

/-- retry (src/test-gdrive.js line 199). The JavaScript defaults are
maxRetries = 3 (4 total tries) and initialDelay = 1000; call sites in this
file pass them explicitly. -/
def retry (fn : Nat → Except String α) (maxRetries initialDelay : Nat) :
    Except String α × List Nat :=
  retryAux fn maxRetries initialDelay 0

/- ----- UploaderFactory: src/src/uploaders/factory.js ----- -/

/-- Configuration entry for one uploader, an element of the uploaders array of
the .config file. A none field models an absent JSON field; the empty string
is the other falsy string value relevant to the source. The pfx field models
the JSON field named prefix. -/
structure JsUploaderCfg where
  type : String
  enabled : Option Bool
  remote_name : Option String
  bucket : Option String
  pfx : Option String
  region : Option String
  storage_class : Option String
deriving Repr, DecidableEq

/-- JavaScript expression v || d for a string-valued field: a falsy value
(absent field or empty string) falls back to the default. -/
def jsStrOrD : Option String → String → String
  | none, d => d
  | some s, d => if s = "" then d else s

/-- A constructed uploader instance, carrying the fields each constructor
stores (GDriveUploader in src/unnamed/part_000, S3RcloneUploader and
S3SdkUploader in src/unnamed/part_001). -/
inductive Uploader
  | gdrive (remoteName : String)
  | s3rclone (remoteName bucket pfx region storageClass : String)
  | s3sdk (bucket pfx region storageClass : String)
deriving Repr, DecidableEq

/-- Error message of the default branch of UploaderFactory.create
(factory.js lines 35 to 39). -/
def createUnsupportedMsg (t : String) : String :=
  "Unsupported uploader type: " ++ t ++ "\nSupported types: gdrive, s3-rclone, s3-sdk"

/-- Wrapper applied by createFromConfig to any error thrown while constructing
an uploader (factory.js line 77). -/
def wrapCreateError (t e : String) : String :=
  "Failed to create uploader (type: " ++ t ++ "): " ++ e

/-- The wrapped error produced for an unrecognized type value t; the message
names t (twice). -/
def unsupportedTypeMsg (t : String) : String :=
  wrapCreateError t (createUnsupportedMsg t)

/-- UploaderFactory.create (factory.js lines 24 to 41): dispatch on the type
string. The S3 constructors throw when their bucket field is falsy
(src/unnamed/part_001); the GDrive constructor never throws; the default
branch throws the unsupported-type error. -/
def UploaderFactory.create (ty : String) (cfg : JsUploaderCfg) : Except String Uploader :=
  if ty = "gdrive" then
    .ok (.gdrive (jsStrOrD cfg.remote_name "gdrive"))
  else if ty = "s3-rclone" then
    match cfg.bucket with
    | none => .error "S3 bucket is required"
    | some b =>
      if b = "" then .error "S3 bucket is required"
      else .ok (.s3rclone (jsStrOrD cfg.remote_name "s3") b (jsStrOrD cfg.pfx "")
        (jsStrOrD cfg.region "us-east-1") (jsStrOrD cfg.storage_class "STANDARD"))
  else if ty = "s3-sdk" then
    match cfg.bucket with
    | none => .error "S3 bucket is required"
    | some b =>
      if b = "" then .error "S3 bucket is required"
      else .ok (.s3sdk b (jsStrOrD cfg.pfx "") (jsStrOrD cfg.region "us-east-1")
        (jsStrOrD cfg.storage_class "STANDARD"))
  else
    .error (createUnsupportedMsg ty)

/-- Loop of UploaderFactory.createFromConfig (factory.js lines 62 to 79):
skip an entry whose enabled field is exactly false; reject a falsy type
field; wrap any error thrown by create; accumulate created uploaders in
order. -/
def UploaderFactory.createFromConfigAux : List JsUploaderCfg → Except String (List Uploader)
  | [] => .ok []
  | c :: rest =>
    if c.enabled = some false then
      UploaderFactory.createFromConfigAux rest
    else if c.type = "" then
      .error "uploader config must have a \"type\" field"
    else
      match UploaderFactory.create c.type c with
      | .ok u => (UploaderFactory.createFromConfigAux rest).map (fun us => u :: us)
      | .error e => .error (wrapCreateError c.type e)

/-- UploaderFactory.createFromConfig (factory.js lines 55 to 86): after the
loop, an empty resulting list is itself an error (lines 81 to 83). -/
def UploaderFactory.createFromConfig (cfgs : List JsUploaderCfg) : Except String (List Uploader) :=
  match UploaderFactory.createFromConfigAux cfgs with
  | .ok [] => .error "No enabled uploaders configured"
  | .ok us => .ok us
  | .error e => .error e

/- ----- cleanupOldBackups: src/src/uploaders/base.js lines 69 to 91 and the
GDriveUploader override, src/unnamed/part_000 lines 208 to 240 ----- -/

/-- One entry of the listing a destination returns: name and creation time.
Timestamps are integer milliseconds; new Date(file.createdTime) compared with
another Date compares these numbers. -/
structure RemoteFile where
  name : String
  createdTime : Int
deriving Repr, DecidableEq

/-- Milliseconds in one day. The source computes the cutoff with
cutoffDate.setDate(cutoffDate.getDate() - retentionDays), a subtraction of
whole days from the current time, modeled here as now - retentionDays days in
milliseconds. -/
def msPerDay : Int := 86400000

/-- The deletion loop shared by both cleanup implementations: walk the listed
files, delete every file whose timestamp is strictly earlier than the cutoff,
and count the deletions. Returns the count and the names deleted, in order. -/
def cleanupDeleteLoop (cutoff : Int) : List RemoteFile → Nat × List String
  | [] => (0, [])
  | f :: rest =>
    let r := cleanupDeleteLoop cutoff rest
    if f.createdTime < cutoff then (r.1 + 1, f.name :: r.2) else r

/-- Result of one cleanupOldBackups call: the JavaScript return value
(none models undefined, the value of a bare return or of falling off the end
of the function) and the names of the remote files deleted. -/
structure CleanupResult where
  returned : Option Nat
  deleted : List String
deriving Repr, DecidableEq

/-- BaseUploader.cleanupOldBackups (base.js lines 69 to 91): an empty listing
returns undefined via the bare return at line 73; otherwise the loop runs and
deletedCount is returned. -/
def BaseUploader.cleanupOldBackups (files : List RemoteFile) (now retentionDays : Int) :
    CleanupResult :=
  if files.length = 0 then ⟨none, []⟩
  else
    let cutoffDate := now - retentionDays * msPerDay
    let r := cleanupDeleteLoop cutoffDate files
    ⟨some r.1, r.2⟩

/-- GDriveUploader.cleanupOldBackups (src/unnamed/part_000 lines 208 to 240):
same listing check and deletion loop, but the function only logs the count and
has no return statement, so it always returns undefined. -/
def GDriveUploader.cleanupOldBackups (files : List RemoteFile) (now retentionDays : Int) :
    CleanupResult :=
  if files.length = 0 then ⟨none, []⟩
  else
    let cutoffDate := now - retentionDays * msPerDay
    let r := cleanupDeleteLoop cutoffDate files
    ⟨none, r.2⟩

/- ----- Config.loadConfig: src/src/config.js lines 134 to 172 ----- -/

/-- The fields of the parsed .config JSON document that loadConfig reads.
A none field models an absent or null JSON field (both falsy). -/
structure RawAppConfig where
  google_drive_folder_path : Option String
  retention_days : Option Int
  schedule : Option String
deriving Repr, DecidableEq

/-- The settings object loadConfig returns after validation and defaulting. -/
structure AppConfig where
  google_drive_folder_path : String
  retention_days : Int
  schedule : String
deriving Repr, DecidableEq

/-- JavaScript falsiness of an optional string: absent, null or empty. -/
def jsStrFalsy : Option String → Bool
  | none => true
  | some s => s = ""

/-- JavaScript falsiness of an optional integer: absent, null or zero. -/
def jsIntFalsy : Option Int → Bool
  | none => true
  | some n => n = 0

/-- Config.loadConfig (config.js lines 134 to 172): require a truthy
google_drive_folder_path, then apply the falsy-or defaults
retention_days = retention_days || 7 (line 163) and
schedule = schedule || "0 2 * * *" (line 168). -/
def Config.loadConfig (c : RawAppConfig) : Except String AppConfig :=
  if jsStrFalsy c.google_drive_folder_path then
    .error "google_drive_folder_path is required in .config"
  else
    .ok ⟨c.google_drive_folder_path.getD "",
      if jsIntFalsy c.retention_days then 7 else c.retention_days.getD 0,
      if jsStrFalsy c.schedule then "0 2 * * *" else c.schedule.getD ""⟩

/- ----- runBackup orchestrator: src/src/backup.js ----- -/

/-- Split a character list at every occurrence of the separator, the way the
JavaScript string split method does (n separators give n + 1 pieces). -/
def splitOnChar (sep : Char) : List Char → List (List Char)
  | [] => [[]]
  | c :: rest =>
    let r := splitOnChar sep rest
    if c = sep then [] :: r
    else
      match r with
      | [] => [[c]]
      | s :: ss => (c :: s) :: ss

/-- path.basename as used at backup.js line 86: the component after the last
slash of the folder path (trailing-slash normalization is not modeled; no
claim exercises it). -/
def basename (p : String) : String :=
  ⟨(splitOnChar '/' p.data).getLastD p.data⟩

/-- path.join of a directory and a file name (backup.js lines 93, 131, 144). -/
def pathJoin (a b : String) : String := a ++ "/" ++ b

/-- generateTimestampFilename (src/test-gdrive.js lines 256 to 271): builds
pfx-TIMESTAMP.ext; the timestamp string derived from the wall clock is a
parameter here. -/
def generateTimestampFilename (pfx ts ext : String) : String :=
  pfx ++ "-" ++ ts ++ "." ++ ext

/-- Database name extraction at backup.js line 125: take the part of the
connection string after the last slash, then the part before the first
question mark. -/
def dbNameOf (conn : String) : String :=
  ⟨(splitOnChar '?' ((splitOnChar '/' conn.data).getLastD conn.data)).headD []⟩

/-- One entry of the folderBackups / dbBackups arrays (backup.js lines 102 and
156): the local archive path and the archive file name. -/
structure Backup where
  path : String
  name : String
deriving Repr, DecidableEq

/-- The backup entry pushed at backup.js line 102 for a folder target. -/
def mkFolderBackup (dir ts f : String) : Backup :=
  ⟨pathJoin dir (generateTimestampFilename ("folder-" ++ basename f) ts "tar.gz"),
    generateTimestampFilename ("folder-" ++ basename f) ts "tar.gz"⟩

/-- The backup entry pushed at backup.js line 156 for a database target. -/
def mkDbBackup (dir ts conn : String) : Backup :=
  ⟨pathJoin dir (generateTimestampFilename ("db-" ++ dbNameOf conn) ts "tar.gz"),
    generateTimestampFilename ("db-" ++ dbNameOf conn) ts "tar.gz"⟩

/-- Folder loop of backup.js lines 80 to 109, entered at index i. folderOk i
is the final outcome of the retry-wrapped compressFolder call for folder i; on
failure the catch block logs and the loop continues, contributing nothing. -/
def processFolders (dir ts : String) (folderOk : Nat → Bool) :
    Nat → List String → List Backup
  | _, [] => []
  | i, f :: rest =>
    if folderOk i then
      mkFolderBackup dir ts f :: processFolders dir ts folderOk (i + 1) rest
    else
      processFolders dir ts folderOk (i + 1) rest

/-- Database loop of backup.js lines 118 to 163, entered at index i. dumpOk i
and dbCompressOk i are the final outcomes of the two retry-wrapped calls
(createDatabaseDump and compressDatabaseDump) for database i; failure of
either is caught and the loop continues, contributing nothing. -/
def processDatabases (dir ts : String) (dumpOk dbCompressOk : Nat → Bool) :
    Nat → List String → List Backup
  | _, [] => []
  | i, conn :: rest =>
    if dumpOk i && dbCompressOk i then
      mkDbBackup dir ts conn :: processDatabases dir ts dumpOk dbCompressOk (i + 1) rest
    else
      processDatabases dir ts dumpOk dbCompressOk (i + 1) rest

/-- allBackups (backup.js line 170): folder backups then database backups. -/
def allBackupsOf (dir ts : String) (folders databases : List String)
    (folderOk dumpOk dbCompressOk : Nat → Bool) : List Backup :=
  processFolders dir ts folderOk 0 folders
    ++ processDatabases dir ts dumpOk dbCompressOk 0 databases

/-- State of the inner upload loop of backup.js lines 184 to 204 for one
uploader: the two counters declared at lines 177 and 178, plus the
(uploaderIndex, backupIndex) pairs attempted and succeeded, in order. -/
structure UploadStats where
  succCount : Nat
  failCount : Nat
  attempted : List (Nat × Nat)
  succeeded : List (Nat × Nat)
deriving Repr, DecidableEq

/-- Inner upload loop (backup.js lines 184 to 204) for uploader index u,
entered at backup index i. uploadOk u i is the final outcome of the
retry-wrapped uploadFile call for that (uploader, backup) pair; a failure is
caught, counted, and the loop continues. -/
def uploadBackupsLoop (uploadOk : Nat → Nat → Bool) (u : Nat) :
    Nat → List Backup → UploadStats
  | _, [] => ⟨0, 0, [], []⟩
  | i, _ :: rest =>
    let r := uploadBackupsLoop uploadOk u (i + 1) rest
    if uploadOk u i then
      ⟨r.succCount + 1, r.failCount, (u, i) :: r.attempted, (u, i) :: r.succeeded⟩
    else
      ⟨r.succCount, r.failCount + 1, (u, i) :: r.attempted, r.succeeded⟩

/-- Outer upload loop (backup.js lines 173 to 207), entered at uploader index
u: every uploader runs the inner loop over all backups; the two per-uploader
counters are let-declarations local to the loop body and die with each
iteration, so only the attempted and succeeded pair lists survive. -/
def uploadPhase (uploadOk : Nat → Nat → Bool) (backups : List Backup) :
    Nat → List Uploader → List (Nat × Nat) × List (Nat × Nat)
  | _, [] => ([], [])
  | u, _ :: rest =>
    let s := uploadBackupsLoop uploadOk u 0 backups
    let r := uploadPhase uploadOk backups (u + 1) rest
    (s.attempted ++ r.1, s.succeeded ++ r.2)

/-- Local cleanup loop of backup.js lines 211 to 218: for every entry of
allBackups, unconditionally fs.unlinkSync its path. Takes the list of local
files on disk and returns what remains. -/
def deleteLocalFiles (disk : List String) : List Backup → List String
  | [] => disk
  | b :: rest => deleteLocalFiles (disk.erase b.path) rest

/-- Value of the identifier uploadSuccessCount (paired with uploadFailCount)
in the lexical environment at backup.js lines 253 to 259. Both counters are
declared with let at lines 177 and 178, inside the block body of the
for-of loop over uploaders (lines 173 to 207), so they are not in scope at
line 253: per JavaScript block scoping, reading them there throws
ReferenceError: uploadSuccessCount is not defined. none models that absence
of a binding. -/
def reportScopeCounters : Option (Nat × Nat) := none

/-- The observable outcome of one run of runBackup. localFiles is the list of
local archive files still on disk after the local cleanup loop; attempted and
succeeded list the (uploaderIndex, backupIndex) upload pairs; fatal is the
message of the error caught by the top-level catch (backup.js line 263), if
any. -/
structure RunOutcome where
  exitCode : Nat
  fatal : Option String
  localFiles : List String
  allBackups : List Backup
  attempted : List (Nat × Nat)
  succeeded : List (Nat × Nat)
deriving Repr, DecidableEq

/-- runBackup (backup.js lines 29 to 271), starting from phase 3 (the config
and uploader-initialization phases 1 and 2 are modeled by the already-loaded
inputs: target lists, an uploader list, and the oracles giving each
retry-wrapped external call its final outcome). Phases: archive folders,
dump and archive databases, upload every backup to every uploader, delete
every local archive unconditionally (lines 211 to 218), run remote cleanup
per uploader (failures there are caught and only logged, lines 225 to 240),
then the report step (lines 247 to 261) reads uploadSuccessCount and
uploadFailCount, which are out of scope; the resulting ReferenceError is
caught at line 263 and the process exits with code 1. The dead some-branch
transcribes the intended exit logic of lines 259 to 261. -/
def runBackup (dir ts : String) (folders databases : List String)
    (uploaders : List Uploader) (folderOk dumpOk dbCompressOk : Nat → Bool)
    (uploadOk : Nat → Nat → Bool) : RunOutcome :=
  let allBackups := allBackupsOf dir ts folders databases folderOk dumpOk dbCompressOk
  let up := uploadPhase uploadOk allBackups 0 uploaders
  let disk := allBackups.map Backup.path
  let remaining := deleteLocalFiles disk allBackups
  match reportScopeCounters with
  | none =>
    ⟨1, some "uploadSuccessCount is not defined", remaining, allBackups, up.1, up.2⟩
  | some (_, failCount) =>
    if failCount > 0 then ⟨1, none, remaining, allBackups, up.1, up.2⟩
    else ⟨0, none, remaining, allBackups, up.1, up.2⟩

/- ----- Concrete operations used by witness theorems ----- -/

/-- Witness operation for claim C3: fails on attempts 0, 1 and 2, succeeds on
attempt 3. -/
def failsThriceOp : Nat → Except String Nat :=
  fun k => if k < 3 then .error "temporary outage" else .ok 42

/-- Witness operation for claim C4: fails on every attempt. -/
def alwaysFailsOp : Nat → Except String Nat :=
  fun _ => .error "disk unreachable"

/-- Witness configuration entry: a gdrive uploader with enabled set to false.
Fields, in order: type, enabled, remote_name, bucket, pfx, region,
storage_class. -/
def cfgGdriveDisabledW : JsUploaderCfg :=
  ⟨"gdrive", some false, none, none, none, none, none⟩

/-- Witness configuration entry: an enabled gdrive uploader. -/
def cfgGdriveEnabledW : JsUploaderCfg :=
  ⟨"gdrive", some true, none, none, none, none, none⟩

/-- Witness configuration entry: an enabled entry with the unrecognized type
value unknown-x. -/
def cfgUnknownW : JsUploaderCfg :=
  ⟨"unknown-x", some true, none, none, none, none, none⟩

/-- Concrete run for claim C1: one folder target whose archival succeeds, two
active uploaders, the upload of the archive to uploader 0 succeeds and to
uploader 1 fails. -/
def runC1 : RunOutcome :=
  runBackup "/backups" "20251011-020000" ["/data/docs"] []
    [Uploader.gdrive "gdrive", Uploader.s3sdk "bkt" "" "us-east-1" "STANDARD"]
    (fun _ => true) (fun _ => true) (fun _ => true) (fun u _ => u == 0)

/-- Concrete run for claim C2: one folder target, one uploader, every
attempted upload succeeds. -/
def runC2 : RunOutcome :=
  runBackup "/backups" "20251011-020000" ["/data/docs"] [] [Uploader.gdrive "gdrive"]
    (fun _ => true) (fun _ => true) (fun _ => true) (fun _ _ => true)

/- ===================== Theorems ===================== -/

/- ----- Retry helper lemmas ----- -/

theorem retryAux_ok_eq (fn : Nat → Except String α) (m d a : Nat) (v : α)
    (h : fn a = .ok v) : retryAux fn m d a = (.ok v, []) := by
  unfold retryAux
  rw [h]

theorem retryAux_error_lt (fn : Nat → Except String α) (m d a : Nat) (e : String)
    (h : fn a = .error e) (hlt : a < m) :
    retryAux fn m d a =
      ((retryAux fn m d (a + 1)).1, d * 2 ^ a :: (retryAux fn m d (a + 1)).2) := by
  conv_lhs => unfold retryAux
  rw [h]
  dsimp only
  rw [dif_pos hlt]

theorem retryAux_error_last (fn : Nat → Except String α) (m d a : Nat) (e : String)
    (h : fn a = .error e) (hge : ¬ a < m) :
    retryAux fn m d a = (.error (retryFailMsg m e), []) := by
  conv_lhs => unfold retryAux
  rw [h]
  dsimp only
  rw [dif_neg hge]

theorem retryAux_eventually_ok (fn : Nat → Except String α) (m d : Nat) (v : α) :
    ∀ (fuel a n : Nat), n - a = fuel → n ≤ m → a ≤ n →
      (∀ k, a ≤ k → k < n → ∃ e, fn k = .error e) → fn n = .ok v →
      retryAux fn m d a = (.ok v, (List.range fuel).map fun j => d * 2 ^ (a + j)) := by
  intro fuel
  induction fuel with
  | zero =>
    intro a n hfuel hnm han hfail hsucc
    have ha : a = n := by omega
    subst ha
    rw [retryAux_ok_eq fn m d a v hsucc]
    simp
  | succ f ih =>
    intro a n hfuel hnm han hfail hsucc
    have hlt : a < n := by omega
    obtain ⟨e, he⟩ := hfail a le_rfl hlt
    rw [retryAux_error_lt fn m d a e he (by omega),
      ih (a + 1) n (by omega) hnm (by omega)
        (fun k hk1 hk2 => hfail k (by omega) hk2) hsucc]
    refine congrArg (Prod.mk (Except.ok v)) ?_
    rw [List.range_succ_eq_map, List.map_cons, List.map_map]
    rw [Nat.add_zero]
    refine congrArg (List.cons (d * 2 ^ a)) ?_
    apply List.map_congr_left
    intro j _
    simp only [Function.comp, Nat.succ_eq_add_one]
    have h2 : a + 1 + j = a + (j + 1) := by omega
    rw [h2]

theorem retryAux_all_error (fn : Nat → Except String α) (m d : Nat) (es : Nat → String) :
    ∀ (fuel a : Nat), m - a = fuel → a ≤ m →
      (∀ k, a ≤ k → k ≤ m → fn k = .error (es k)) →
      (retryAux fn m d a).1 = .error (retryFailMsg m (es m)) := by
  intro fuel
  induction fuel with
  | zero =>
    intro a hfa ham hfail
    have ha : a = m := by omega
    subst ha
    rw [retryAux_error_last fn a d a (es a) (hfail a le_rfl le_rfl) (by omega)]
  | succ f ih =>
    intro a hfa ham hfail
    have hlt : a < m := by omega
    rw [retryAux_error_lt fn m d a (es a) (hfail a le_rfl (by omega)) hlt]
    exact ih (a + 1) (by omega) (by omega) (fun k hk1 hk2 => hfail k (by omega) hk2)

theorem retryAux_error_inv (fn : Nat → Except String α) (m d : Nat) :
    ∀ (fuel a : Nat) (msg : String), m - a = fuel → a ≤ m →
      (retryAux fn m d a).1 = .error msg →
      ∃ e, fn m = .error e ∧ msg = retryFailMsg m e := by
  intro fuel
  induction fuel with
  | zero =>
    intro a msg hfa ham hres
    have ha : a = m := by omega
    subst ha
    cases hfn : fn a with
    | ok v =>
      rw [retryAux_ok_eq fn a d a v hfn] at hres
      simp at hres
    | error e =>
      rw [retryAux_error_last fn a d a e hfn (by omega)] at hres
      simp at hres
      exact ⟨e, rfl, hres.symm⟩
  | succ f ih =>
    intro a msg hfa ham hres
    cases hfn : fn a with
    | ok v =>
      rw [retryAux_ok_eq fn m d a v hfn] at hres
      simp at hres
    | error e =>
      rw [retryAux_error_lt fn m d a e hfn (by omega)] at hres
      exact ih (a + 1) msg (by omega) (by omega) hres

/- ----- Claims C3 and C4 ----- -/

/-- Claim C3: with the source defaults maxRetries = 3 (4 total tries) and
initialDelay = 1000, an operation that fails on every attempt before attempt
n (n at most 3) and succeeds at attempt n makes retry return the success
value, having slept exactly the delays 1000 * 2 ^ k for k = 0, ..., n - 1
(so the result is returned immediately on the first successful attempt, each
wait is initialDelay * 2 ^ attemptIndex, and for n = 3 the delays are 1000,
2000, 4000 totalling 7000). -/
theorem retry_backoff_schedule (fn : Nat → Except String α) (v : α) (n : Nat)
    (hn : n ≤ 3) (hfail : ∀ k, k < n → ∃ e, fn k = .error e) (hsucc : fn n = .ok v) :
    retry fn 3 1000 = (.ok v, (List.range n).map fun j => 1000 * 2 ^ j) := by
  have h := retryAux_eventually_ok fn 3 1000 v n 0 n (by omega) hn (Nat.zero_le n)
    (fun k _ hk2 => hfail k hk2) hsucc
  simpa [retry] using h

/-- Claim C3 witness: an operation failing 3 times then succeeding, run with
maxRetries = 3 and initialDelay = 1000, returns the success value after the
delays 1000, 2000, 4000, whose total is 7000. -/
theorem retry_backoff_schedule_witness :
    retry failsThriceOp 3 1000 = (.ok 42, [1000, 2000, 4000]) ∧
      [1000, 2000, 4000].sum = 7000 := by
  constructor
  · exact (retry_backoff_schedule failsThriceOp 42 3 (by decide)
      (fun k hk => ⟨"temporary outage", by
        unfold failsThriceOp
        rw [if_pos hk]⟩) rfl).trans rfl
  · decide

/-- Claim C4: an operation failing on every attempt makes retry fail with the
single wrapping error built at src/test-gdrive.js line 234 from the message of
the last underlying error; and whenever retry fails, its error is exactly that
wrap of the final attempt error, so this is the only error the retry executor
itself produces. -/
theorem retry_exhausted_wraps_last (fn : Nat → Except String α) (m d : Nat)
    (es : Nat → String) (hfail : ∀ k, k ≤ m → fn k = .error (es k)) :
    (retry fn m d).1 = .error (retryFailMsg m (es m)) ∧
      ∀ (g : Nat → Except String α) (msg : String), (retry g m d).1 = .error msg →
        ∃ e, g m = .error e ∧ msg = retryFailMsg m e := by
  constructor
  · exact retryAux_all_error fn m d es m 0 (by omega) (Nat.zero_le m)
      (fun k _ hk2 => hfail k hk2)
  · intro g msg h
    exact retryAux_error_inv g m d m 0 msg (by omega) (Nat.zero_le m) h

/-- Claim C4 witness: the always-failing operation, with 4 total tries,
produces exactly the wrapping error naming 4 attempts and the last message. -/
theorem retry_exhausted_wraps_last_witness :
    (retry alwaysFailsOp 3 1000).1 = .error "Failed after 4 attempts: disk unreachable" := by
  have h := retry_exhausted_wraps_last alwaysFailsOp 3 1000 (fun _ => "disk unreachable")
    (fun _ _ => rfl)
  exact h.1.trans rfl

/- ----- Factory helper lemmas ----- -/

theorem createFromConfigAux_skip (pre post : List JsUploaderCfg) (c : JsUploaderCfg)
    (hc : c.enabled = some false) :
    UploaderFactory.createFromConfigAux (pre ++ c :: post)
      = UploaderFactory.createFromConfigAux (pre ++ post) := by
  induction pre with
  | nil => simp [UploaderFactory.createFromConfigAux, hc]
  | cons d pre ih =>
    simp only [List.cons_append, UploaderFactory.createFromConfigAux, List.append_eq, ih]

theorem createFromConfigAux_all_disabled (cfgs : List JsUploaderCfg)
    (h : ∀ d ∈ cfgs, d.enabled = some false) :
    UploaderFactory.createFromConfigAux cfgs = .ok [] := by
  induction cfgs with
  | nil => rfl
  | cons d rest ih =>
    have hd := h d (List.mem_cons_self d rest)
    simp [UploaderFactory.createFromConfigAux, hd,
      ih (fun x hx => h x (List.mem_cons_of_mem d hx))]

theorem createFromConfigAux_unknown (pre post : List JsUploaderCfg) (c : JsUploaderCfg)
    (hpre : ∀ d ∈ pre, d.enabled = some false) (hen : c.enabled ≠ some false)
    (h1 : c.type ≠ "") (h2 : c.type ≠ "gdrive") (h3 : c.type ≠ "s3-rclone")
    (h4 : c.type ≠ "s3-sdk") :
    UploaderFactory.createFromConfigAux (pre ++ c :: post)
      = .error (unsupportedTypeMsg c.type) := by
  induction pre with
  | nil =>
    simp only [List.nil_append, UploaderFactory.createFromConfigAux]
    rw [if_neg hen, if_neg h1]
    have hcreate : UploaderFactory.create c.type c = .error (createUnsupportedMsg c.type) := by
      unfold UploaderFactory.create
      rw [if_neg h2, if_neg h3, if_neg h4]
    rw [hcreate]
    rfl
  | cons d pre ih =>
    have hd := hpre d (List.mem_cons_self d pre)
    simp only [List.cons_append, UploaderFactory.createFromConfigAux, hd]
    simpa [hd] using ih (fun x hx => hpre x (List.mem_cons_of_mem d hx))

/- ----- Claim C5 ----- -/

/-- Claim C5: in UploaderFactory.createFromConfig, (a) an entry whose enabled
field is exactly false is silently skipped, leaving the result identical to
the run without it (in particular it never appears in the returned list);
(b) when every earlier entry is disabled, an enabled entry with an
unrecognized, non-empty type makes construction fail with an error naming
that type value; (c) when every entry is disabled (so zero destinations
remain after filtering, including the empty sequence), construction fails
with the no-active-destinations error instead of returning an empty list. -/
theorem createFromConfig_spec :
    (∀ (pre post : List JsUploaderCfg) (c : JsUploaderCfg), c.enabled = some false →
      UploaderFactory.createFromConfig (pre ++ c :: post)
        = UploaderFactory.createFromConfig (pre ++ post)) ∧
    (∀ (pre post : List JsUploaderCfg) (c : JsUploaderCfg),
      (∀ d ∈ pre, d.enabled = some false) → c.enabled ≠ some false → c.type ≠ "" →
      c.type ≠ "gdrive" → c.type ≠ "s3-rclone" → c.type ≠ "s3-sdk" →
      UploaderFactory.createFromConfig (pre ++ c :: post)
        = .error (unsupportedTypeMsg c.type)) ∧
    (∀ cfgs : List JsUploaderCfg, (∀ d ∈ cfgs, d.enabled = some false) →
      UploaderFactory.createFromConfig cfgs = .error "No enabled uploaders configured") := by
  refine ⟨?_, ?_, ?_⟩
  · intro pre post c hc
    unfold UploaderFactory.createFromConfig
    rw [createFromConfigAux_skip pre post c hc]
  · intro pre post c hpre hen h1 h2 h3 h4
    unfold UploaderFactory.createFromConfig
    rw [createFromConfigAux_unknown pre post c hpre hen h1 h2 h3 h4]
  · intro cfgs h
    unfold UploaderFactory.createFromConfig
    rw [createFromConfigAux_all_disabled cfgs h]

/-- Claim C5 witness: concrete instances of the three parts. A disabled
entry in front of an enabled gdrive entry is skipped; a single enabled entry
with type unknown-x fails with the wrapped message naming unknown-x; a
sequence with only a disabled entry fails with the no-active-destinations
error. -/
theorem createFromConfig_spec_witness :
    (UploaderFactory.createFromConfig ([] ++ cfgGdriveDisabledW :: [cfgGdriveEnabledW])
        = UploaderFactory.createFromConfig ([] ++ [cfgGdriveEnabledW])) ∧
    (UploaderFactory.createFromConfig ([] ++ cfgUnknownW :: [])
        = .error (unsupportedTypeMsg "unknown-x")) ∧
    (UploaderFactory.createFromConfig [cfgGdriveDisabledW]
        = .error "No enabled uploaders configured") := by
  refine ⟨createFromConfig_spec.1 [] [cfgGdriveEnabledW] cfgGdriveDisabledW rfl, ?_, ?_⟩
  · exact createFromConfig_spec.2.1 [] [] cfgUnknownW (by simp)
      (by simp [cfgUnknownW]) (by simp [cfgUnknownW]) (by simp [cfgUnknownW])
      (by simp [cfgUnknownW]) (by simp [cfgUnknownW])
  · exact createFromConfig_spec.2.2 [cfgGdriveDisabledW]
      (by intro d hd; simp at hd; subst hd; rfl)

/- ----- Cleanup helper lemma ----- -/

theorem cleanupDeleteLoop_spec (cutoff : Int) (files : List RemoteFile) :
    cleanupDeleteLoop cutoff files =
      ((files.filter fun f => decide (f.createdTime < cutoff)).length,
        (files.filter fun f => decide (f.createdTime < cutoff)).map RemoteFile.name) := by
  induction files with
  | nil => rfl
  | cons f rest ih =>
    simp only [cleanupDeleteLoop, ih, List.filter_cons]
    by_cases h : f.createdTime < cutoff
    · simp [h]
    · simp [h]

/- ----- Claim C6 ----- -/

/-- Claim C6: for both cleanup implementations (the shared BaseUploader one
and the GDriveUploader override), cleanupOldBackups deletes exactly the
listed remote files whose timestamp is strictly before
cutoff = now - retentionDays days, and a file whose timestamp equals the
cutoff exactly is retained. -/
theorem cleanupOldBackups_strict_cutoff (files : List RemoteFile) (now rd : Int) :
    ((BaseUploader.cleanupOldBackups files now rd).deleted
        = (files.filter fun f => decide (f.createdTime < now - rd * msPerDay)).map
            RemoteFile.name) ∧
    ((GDriveUploader.cleanupOldBackups files now rd).deleted
        = (files.filter fun f => decide (f.createdTime < now - rd * msPerDay)).map
            RemoteFile.name) ∧
    (∀ f : RemoteFile, f.createdTime = now - rd * msPerDay →
      f.name ∉ (BaseUploader.cleanupOldBackups [f] now rd).deleted ∧
      f.name ∉ (GDriveUploader.cleanupOldBackups [f] now rd).deleted) := by
  refine ⟨?_, ?_, ?_⟩
  · unfold BaseUploader.cleanupOldBackups
    by_cases h : files.length = 0
    · have hf : files = [] := List.length_eq_zero.mp h
      subst hf
      simp
    · rw [if_neg h]
      simp [cleanupDeleteLoop_spec]
  · unfold GDriveUploader.cleanupOldBackups
    by_cases h : files.length = 0
    · have hf : files = [] := List.length_eq_zero.mp h
      subst hf
      simp
    · rw [if_neg h]
      simp [cleanupDeleteLoop_spec]
  · intro f hf
    constructor
    · unfold BaseUploader.cleanupOldBackups
      simp [cleanupDeleteLoop_spec, List.filter_cons, hf]
    · unfold GDriveUploader.cleanupOldBackups
      simp [cleanupDeleteLoop_spec, List.filter_cons, hf]

/-- Claim C6 witness: with now at exactly 7 days (in milliseconds) and a
retention of 7 days, the cutoff is 0, and a file created exactly at 0 is
retained by both implementations. -/
theorem cleanupOldBackups_strict_cutoff_witness :
    "boundary" ∉ (BaseUploader.cleanupOldBackups [⟨"boundary", 0⟩] 604800000 7).deleted ∧
    "boundary" ∉ (GDriveUploader.cleanupOldBackups [⟨"boundary", 0⟩] 604800000 7).deleted := by
  exact (cleanupOldBackups_strict_cutoff [⟨"boundary", 0⟩] 604800000 7).2.2
    ⟨"boundary", 0⟩ (by decide)

/- ----- Claim C7 (corrected) ----- -/

/-- Claim C7 counterexample: the claim says cleanupOldBackups returns the
number of files deleted and returns 0 on an empty listing. In the code, the
zero-file short-circuit of the base implementation is a bare return (an
undefined value, not 0), and the GDriveUploader override never returns the
count at all: here it deletes one file yet returns undefined. -/
theorem cleanupOldBackups_returns_undefined_cex :
    (BaseUploader.cleanupOldBackups [] 0 7).returned ≠ some 0 ∧
    (GDriveUploader.cleanupOldBackups [⟨"old", 0⟩] 604800001 7).deleted = ["old"] ∧
    (GDriveUploader.cleanupOldBackups [⟨"old", 0⟩] 604800001 7).returned ≠ some 1 := by
  decide

/-- Claim C7 amended: on a zero-file listing both implementations
short-circuit without error, returning undefined (not 0); on a non-empty
listing the base implementation (inherited by the two S3 variants) returns
the number of files it deleted, while the GDriveUploader override always
returns undefined. -/
theorem cleanupOldBackups_return_value (files : List RemoteFile) (now rd : Int) :
    (files = [] → BaseUploader.cleanupOldBackups files now rd = ⟨none, []⟩ ∧
      GDriveUploader.cleanupOldBackups files now rd = ⟨none, []⟩) ∧
    (files ≠ [] → (BaseUploader.cleanupOldBackups files now rd).returned
        = some (BaseUploader.cleanupOldBackups files now rd).deleted.length) ∧
    (GDriveUploader.cleanupOldBackups files now rd).returned = none := by
  refine ⟨?_, ?_, ?_⟩
  · intro hf
    subst hf
    exact ⟨rfl, rfl⟩
  · intro hf
    have h : ¬ files.length = 0 := by
      simpa using fun h0 => hf (List.length_eq_zero.mp h0)
    unfold BaseUploader.cleanupOldBackups
    rw [if_neg h]
    simp [cleanupDeleteLoop_spec]
  · unfold GDriveUploader.cleanupOldBackups
    by_cases h : files.length = 0
    · rw [if_pos h]
    · rw [if_neg h]

/-- Claim C7 witness: the empty listing gives undefined and no deletions; a
one-file listing older than the cutoff gives a returned count of 1 from the
base implementation. -/
theorem cleanupOldBackups_return_value_witness :
    BaseUploader.cleanupOldBackups [] 0 7 = ⟨none, []⟩ ∧
    (BaseUploader.cleanupOldBackups [⟨"old", 0⟩] 604800001 7).returned = some 1 := by
  refine ⟨((cleanupOldBackups_return_value [] 0 7).1 rfl).1, ?_⟩
  exact ((cleanupOldBackups_return_value [⟨"old", 0⟩] 604800001 7).2.1 (by simp)).trans
    (by decide)

/- ----- Claim C10 ----- -/

/-- Claim C10: the falsy-or default at config.js line 163 conflates an
explicit retention_days of 0 (and null or absent) with the default: any such
value loads as 7, and no successfully loaded configuration can carry a
retention period of zero days. -/
theorem loadConfig_retention_conflates_zero (c : RawAppConfig) (out : AppConfig)
    (h : Config.loadConfig c = .ok out) :
    ((c.retention_days = some 0 ∨ c.retention_days = none) → out.retention_days = 7) ∧
    out.retention_days ≠ 0 := by
  unfold Config.loadConfig at h
  by_cases hg : jsStrFalsy c.google_drive_folder_path
  · rw [if_pos hg] at h
    exact absurd h (by simp)
  · rw [if_neg hg] at h
    injection h with h2
    subst h2
    refine ⟨?_, ?_⟩
    · rintro (h0 | h0) <;> simp [jsIntFalsy, h0]
    · cases hrd : c.retention_days with
      | none => simp [jsIntFalsy, hrd]
      | some n =>
        by_cases hn : n = 0
        · simp [jsIntFalsy, hrd, hn]
        · simp [jsIntFalsy, hrd, hn]

/-- Claim C10 witness: a config whose retention_days is explicitly 0 loads
with retention_days 7, which is nonzero. -/
theorem loadConfig_retention_conflates_zero_witness :
    (⟨"backups", 7, "0 2 * * *"⟩ : AppConfig).retention_days = 7 ∧
    (⟨"backups", 7, "0 2 * * *"⟩ : AppConfig).retention_days ≠ 0 := by
  have h := loadConfig_retention_conflates_zero ⟨some "backups", some 0, none⟩
    ⟨"backups", 7, "0 2 * * *"⟩ rfl
  exact ⟨h.1 (Or.inl rfl), h.2⟩

/- ----- Orchestrator helper lemmas ----- -/

theorem processFolders_eq (dir ts : String) (ok : Nat → Bool) :
    ∀ (i : Nat) (l : List String),
      processFolders dir ts ok i l
        = ((List.enumFrom i l).filter fun p => ok p.1).map fun p =>
            mkFolderBackup dir ts p.2 := by
  intro i l
  induction l generalizing i with
  | nil => simp [processFolders, List.enumFrom]
  | cons f rest ih =>
    simp only [processFolders, List.enumFrom, List.filter_cons]
    by_cases h : ok i
    · simp [h, ih]
    · simp [h, ih]

theorem processDatabases_eq (dir ts : String) (dOk cOk : Nat → Bool) :
    ∀ (i : Nat) (l : List String),
      processDatabases dir ts dOk cOk i l
        = ((List.enumFrom i l).filter fun p => dOk p.1 && cOk p.1).map fun p =>
            mkDbBackup dir ts p.2 := by
  intro i l
  induction l generalizing i with
  | nil => simp [processDatabases, List.enumFrom]
  | cons c rest ih =>
    simp only [processDatabases, List.enumFrom, List.filter_cons]
    by_cases h : dOk i && cOk i
    · simp [h, ih]
    · simp [h, ih]

theorem uploadBackupsLoop_spec (ok : Nat → Nat → Bool) (u : Nat) :
    ∀ (i : Nat) (l : List Backup),
      (uploadBackupsLoop ok u i l).attempted
          = (List.range l.length).map (fun j => (u, i + j)) ∧
      (uploadBackupsLoop ok u i l).succeeded
          = ((List.range l.length).map (fun j => (u, i + j))).filter
              fun p => ok p.1 p.2 := by
  intro i l
  induction l generalizing i with
  | nil => simp [uploadBackupsLoop]
  | cons b rest ih =>
    obtain ⟨ha, hs⟩ := ih (i + 1)
    have hrange : (List.range (rest.length + 1)).map (fun j => ((u, i + j) : Nat × Nat))
        = (u, i) :: (List.range rest.length).map fun j => (u, (i + 1) + j) := by
      rw [List.range_succ_eq_map, List.map_cons, List.map_map]
      rw [Nat.add_zero]
      refine congrArg (List.cons (u, i)) ?_
      apply List.map_congr_left
      intro j _
      simp only [Function.comp, Nat.succ_eq_add_one]
      have h2 : i + (j + 1) = i + 1 + j := by omega
      rw [h2]
    refine ⟨?_, ?_⟩
    · by_cases h : ok u i <;>
        simp [uploadBackupsLoop, h, List.length_cons, hrange, ha]
    · by_cases h : ok u i <;>
        simp [uploadBackupsLoop, h, List.length_cons, hrange, List.filter_cons, hs, ha]

theorem uploadPhase_spec (ok : Nat → Nat → Bool) (backups : List Backup) :
    ∀ (u : Nat) (ups : List Uploader),
      (uploadPhase ok backups u ups).1
          = ((List.range ups.length).map fun k =>
              (List.range backups.length).map fun b => ((u + k, b) : Nat × Nat)).flatten ∧
      (uploadPhase ok backups u ups).2
          = (uploadPhase ok backups u ups).1.filter fun p => ok p.1 p.2 := by
  intro u ups
  induction ups generalizing u with
  | nil => simp [uploadPhase]
  | cons w rest ih =>
    obtain ⟨ha, hs⟩ := ih (u + 1)
    obtain ⟨la, ls⟩ := uploadBackupsLoop_spec ok u 0 backups
    have hmap0 : (List.range backups.length).map (fun j => ((u, 0 + j) : Nat × Nat))
        = (List.range backups.length).map fun b => ((u, b) : Nat × Nat) := by
      apply List.map_congr_left
      intro j _
      rw [Nat.zero_add]
    have hla : (uploadBackupsLoop ok u 0 backups).attempted
        = (List.range backups.length).map fun b => ((u, b) : Nat × Nat) := by
      rw [la, hmap0]
    have hls : (uploadBackupsLoop ok u 0 backups).succeeded
        = (uploadBackupsLoop ok u 0 backups).attempted.filter fun p => ok p.1 p.2 := by
      rw [ls, hmap0, hla]
    have hrange : (List.range (rest.length + 1)).map (fun k =>
          (List.range backups.length).map fun b => ((u + k, b) : Nat × Nat))
        = ((List.range backups.length).map fun b => ((u, b) : Nat × Nat))
          :: (List.range rest.length).map fun k =>
              (List.range backups.length).map fun b => ((u + 1) + k, b) := by
      rw [List.range_succ_eq_map, List.map_cons, List.map_map]
      refine congrArg₂ List.cons ?_ ?_
      · apply List.map_congr_left
        intro b _
        rw [Nat.add_zero]
      · apply List.map_congr_left
        intro k _
        simp only [Function.comp, Nat.succ_eq_add_one]
        apply List.map_congr_left
        intro b _
        have h2 : u + (k + 1) = u + 1 + k := by omega
        rw [h2]
    refine ⟨?_, ?_⟩
    · show (uploadBackupsLoop ok u 0 backups).attempted
          ++ (uploadPhase ok backups (u + 1) rest).1 = _
      rw [List.length_cons, hrange, List.flatten_cons, hla, ha]
    · show (uploadBackupsLoop ok u 0 backups).succeeded
          ++ (uploadPhase ok backups (u + 1) rest).2 = _
      have hfst : (uploadPhase ok backups u (w :: rest)).1
          = (uploadBackupsLoop ok u 0 backups).attempted
            ++ (uploadPhase ok backups (u + 1) rest).1 := rfl
      rw [hfst, hls, hs, ← List.filter_append]

/- ----- Claim C8 ----- -/

/-- Claim C8: the list of archives entering the upload phase is exactly the
enumerated target list filtered by archival success (folder targets by the
outcome of the compress call, database targets by the outcomes of the dump
and compress calls), each mapped to its archive entry. A target whose
archival fails after exhausting retries therefore contributes no archive,
and every other target is still processed in order, regardless of any
failures of other targets: no archival failure aborts the run. -/
theorem archival_failure_isolated (dir ts : String) (folders databases : List String)
    (uploaders : List Uploader) (folderOk dumpOk dbCompressOk : Nat → Bool)
    (uploadOk : Nat → Nat → Bool) :
    (runBackup dir ts folders databases uploaders folderOk dumpOk dbCompressOk
        uploadOk).allBackups
      = ((folders.enum.filter fun p => folderOk p.1).map fun p =>
          mkFolderBackup dir ts p.2)
        ++ ((databases.enum.filter fun p => dumpOk p.1 && dbCompressOk p.1).map
            fun p => mkDbBackup dir ts p.2) := by
  have h : (runBackup dir ts folders databases uploaders folderOk dumpOk dbCompressOk
      uploadOk).allBackups
      = allBackupsOf dir ts folders databases folderOk dumpOk dbCompressOk := rfl
  rw [h]
  unfold allBackupsOf
  rw [processFolders_eq, processDatabases_eq]
  rfl

/- ----- Claim C9 ----- -/

/-- Claim C9: in the upload phase, the set of attempted (uploader, backup)
pairs is the full product of the uploader indices with the archive indices,
characterized independently of the upload outcomes: a failed upload of an
archive to one destination never prevents any other pair from being
attempted. A pair succeeds exactly when it is attempted and its own upload
outcome is success. -/
theorem upload_failure_isolated (dir ts : String) (folders databases : List String)
    (uploaders : List Uploader) (folderOk dumpOk dbCompressOk : Nat → Bool)
    (uploadOk : Nat → Nat → Bool) :
    ∀ u b : Nat,
      ((u, b) ∈ (runBackup dir ts folders databases uploaders folderOk dumpOk
            dbCompressOk uploadOk).attempted
        ↔ u < uploaders.length
          ∧ b < (allBackupsOf dir ts folders databases folderOk dumpOk
              dbCompressOk).length) ∧
      ((u, b) ∈ (runBackup dir ts folders databases uploaders folderOk dumpOk
            dbCompressOk uploadOk).succeeded
        ↔ (u, b) ∈ (runBackup dir ts folders databases uploaders folderOk dumpOk
            dbCompressOk uploadOk).attempted ∧ uploadOk u b = true) := by
  intro u b
  have allB := allBackupsOf dir ts folders databases folderOk dumpOk dbCompressOk
  have hatt : (runBackup dir ts folders databases uploaders folderOk dumpOk
      dbCompressOk uploadOk).attempted
      = (uploadPhase uploadOk (allBackupsOf dir ts folders databases folderOk dumpOk
          dbCompressOk) 0 uploaders).1 := rfl
  have hsuc : (runBackup dir ts folders databases uploaders folderOk dumpOk
      dbCompressOk uploadOk).succeeded
      = (uploadPhase uploadOk (allBackupsOf dir ts folders databases folderOk dumpOk
          dbCompressOk) 0 uploaders).2 := rfl
  obtain ⟨pa, ps⟩ := uploadPhase_spec uploadOk
    (allBackupsOf dir ts folders databases folderOk dumpOk dbCompressOk) 0 uploaders
  constructor
  · rw [hatt, pa]
    simp only [List.mem_flatten, List.mem_map, List.mem_range]
    constructor
    · rintro ⟨l, ⟨k, hk, rfl⟩, hmem⟩
      simp only [List.mem_map, List.mem_range] at hmem
      obtain ⟨j, hj, hjeq⟩ := hmem
      injection hjeq with h1 h2
      omega
    · rintro ⟨hu, hb⟩
      refine ⟨(List.range (allBackupsOf dir ts folders databases folderOk dumpOk
          dbCompressOk).length).map fun x => ((0 + u, x) : Nat × Nat), ⟨u, hu, rfl⟩, ?_⟩
      simp only [List.mem_map, List.mem_range]
      exact ⟨b, hb, by rw [Nat.zero_add]⟩
  · rw [hsuc, hatt, ps]
    simp [List.mem_filter]

/- ----- Claim C1 (code bug) ----- -/

/-- Claim C1 is right about the intended behavior but the code contradicts it
(and its own comment at backup.js line 209 and the repository docs): the
local cleanup loop at backup.js lines 211 to 218 unlinks every entry of
allBackups unconditionally, never consulting the upload results. In the
concrete run runC1 (two active uploaders, the upload of the only archive
succeeds on uploader 0 and fails on uploader 1), the archive is produced,
both uploads are attempted, only one succeeds, and yet no local archive file
remains after the run. -/
theorem localArchiveDeletedDespiteFailedUpload :
    runC1.allBackups = [⟨"/backups/folder-docs-20251011-020000.tar.gz",
        "folder-docs-20251011-020000.tar.gz"⟩] ∧
    runC1.attempted = [(0, 0), (1, 0)] ∧
    runC1.succeeded = [(0, 0)] ∧
    runC1.localFiles = [] := by
  decide

/- ----- Claim C2 (code bug) ----- -/

/-- Claim C2 is right about the intended behavior but the code cannot deliver
it: uploadSuccessCount and uploadFailCount are let-declared inside the
per-uploader loop body (backup.js lines 177 to 178) and are out of scope at
the report step (lines 253 to 259), so reading them throws a ReferenceError
that the top-level catch turns into exit code 1. In the concrete run runC2
every attempted upload succeeded, yet the run records the ReferenceError as
its fatal error and exits with code 1 instead of 0. (Even absent the scoping
slip, the counters restart at 0 for each uploader, so the tested count would
be the last uploader count, not the total across the whole run.) -/
theorem exitCodeOneDespiteFullSuccess :
    runC2.attempted = [(0, 0)] ∧
    runC2.succeeded = runC2.attempted ∧
    runC2.exitCode = 1 ∧
    runC2.fatal = some "uploadSuccessCount is not defined" := by
  decide

end BackupCloud
